import Mathlib

/-!
Shallow embedding of the creational design-pattern repository
(Builder / Director pair over `Customer`, part-list Builder over `Product`,
`CarFactory` type-dispatch factory, `ConcretePrototype` clone), together
with theorems settling the specification claims.

Conventions of the embedding:
* TypeScript classes with mutable fields become Lean structures; a method
  mutating `this` becomes a function from the old state to the new state.
* `return this` (fluent chaining) is modelled by returning the updated state.
* A method that both returns a value and mutates `this` returns a pair.
* A TypeScript `throw` becomes `Except.error`; dereferencing an undefined
  member (the `builder!` definite-assignment assertion used before
  `setBuilder`) becomes `Except.error (JsError.typeError ...)`, matching the
  `TypeError` the JavaScript runtime raises there.
* Heap-allocated snapshots, where object identity matters, are modelled by a
  list of records playing the role of the heap, with list indices as
  references; allocation appends to the list.
-/

namespace DesignPatterns

/-- Errors observable from the modelled TypeScript code: a runtime
`TypeError` (e.g. dereferencing `undefined`) or a thrown `Error(msg)`. -/
inductive JsError where
  | typeError (msg : String)
  | jsError (msg : String)
deriving DecidableEq, Repr

/- ===== Customer / CustomerBuilder / CustomerDirector (part_000, lines 118-224) ===== -/

/-- The `Customer` class: four public string fields set by its constructor. -/
structure Customer where
  firstName : String
  lastName : String
  phoneNumber : String
  email : String
deriving DecidableEq, Repr

/-- The mutable state of `CustomerBuilder`: four private string fields, each
initialised to the empty string. -/
structure CustomerBuilder where
  firstName : String := ""
  lastName : String := ""
  phoneNumber : String := ""
  email : String := ""
deriving DecidableEq, Repr

/-- Method `CustomerBuilder.setFirstName`: assigns the field and returns `this`. -/
def CustomerBuilder.setFirstName (b : CustomerBuilder) (v : String) : CustomerBuilder :=
  { b with firstName := v }

/-- Method `CustomerBuilder.setLastName`: assigns the field and returns `this`. -/
def CustomerBuilder.setLastName (b : CustomerBuilder) (v : String) : CustomerBuilder :=
  { b with lastName := v }

/-- Method `CustomerBuilder.setPhoneNumber`: assigns the field and returns `this`. -/
def CustomerBuilder.setPhoneNumber (b : CustomerBuilder) (v : String) : CustomerBuilder :=
  { b with phoneNumber := v }

/-- Method `CustomerBuilder.setEmail`: assigns the field and returns `this`. -/
def CustomerBuilder.setEmail (b : CustomerBuilder) (v : String) : CustomerBuilder :=
  { b with email := v }

/-- Method `CustomerBuilder.reset`: sets all four fields back to the empty string. -/
def CustomerBuilder.reset (_b : CustomerBuilder) : CustomerBuilder :=
  { firstName := "", lastName := "", phoneNumber := "", email := "" }

/-- Method `CustomerBuilder.build`: constructs a `Customer` from the current field
values, then resets the builder; returns the customer (paired, in this
embedding, with the post-reset builder state). -/
def CustomerBuilder.build (b : CustomerBuilder) : Customer × CustomerBuilder :=
  (⟨b.firstName, b.lastName, b.phoneNumber, b.email⟩, b.reset)

/-- One setter call on a `CustomerBuilder`, reified so that claims can
quantify over arbitrary sequences of setter calls. -/
inductive SetterOp where
  | setFirstName (v : String)
  | setLastName (v : String)
  | setPhoneNumber (v : String)
  | setEmail (v : String)
deriving DecidableEq, Repr

/-- Apply one reified setter call to the builder state. -/
def SetterOp.apply (op : SetterOp) (b : CustomerBuilder) : CustomerBuilder :=
  match op with
  | .setFirstName v => b.setFirstName v
  | .setLastName v => b.setLastName v
  | .setPhoneNumber v => b.setPhoneNumber v
  | .setEmail v => b.setEmail v

/-- Whether the reified call is a `setFirstName` call. -/
def SetterOp.setsFirstName : SetterOp → Bool
  | .setFirstName _ => true
  | _ => false

/-- Whether the reified call is a `setLastName` call. -/
def SetterOp.setsLastName : SetterOp → Bool
  | .setLastName _ => true
  | _ => false

/-- Whether the reified call is a `setPhoneNumber` call. -/
def SetterOp.setsPhoneNumber : SetterOp → Bool
  | .setPhoneNumber _ => true
  | _ => false

/-- Whether the reified call is a `setEmail` call. -/
def SetterOp.setsEmail : SetterOp → Bool
  | .setEmail _ => true
  | _ => false

/-- Run a sequence of setter calls, left to right, on a builder state. -/
def applySetters (ops : List SetterOp) (b : CustomerBuilder) : CustomerBuilder :=
  ops.foldl (fun b op => op.apply b) b

/-- The builder state a freshly constructed `CustomerBuilder` starts in. -/
def freshCustomerBuilder : CustomerBuilder :=
  { firstName := "", lastName := "", phoneNumber := "", email := "" }

/-- The `CustomerDirector` class.  Its `builder` field is declared with
TypeScript's definite-assignment assertion (`builder!`) and is actually
`undefined` until `setBuilder` is called; `Option` models that. -/
structure CustomerDirector where
  builder : Option CustomerBuilder := none
deriving DecidableEq, Repr

/-- Method `CustomerDirector.setBuilder`: binds the director to a builder. -/
def CustomerDirector.setBuilder (d : CustomerDirector) (b : CustomerBuilder) :
    CustomerDirector :=
  { d with builder := some b }

/-- Method `CustomerDirector.buildMinimalCustomer`: chains `setFirstName`,
`setLastName`, `setEmail`, then `build` on the bound builder.  If `setBuilder`
was never called, the chained call dereferences `undefined` and the JavaScript
runtime raises a `TypeError`. -/
def CustomerDirector.buildMinimalCustomer (d : CustomerDirector)
    (firstName lastName email : String) :
    Except JsError (Customer × CustomerDirector) :=
  match d.builder with
  | none =>
    .error (.typeError "Cannot read properties of undefined (reading setFirstName)")
  | some b =>
    let b1 := ((b.setFirstName firstName).setLastName lastName).setEmail email
    .ok (b1.build.1, { builder := some b1.build.2 })

/-- Method `CustomerDirector.buildFullCustomer`: chains `setFirstName`, `setLastName`,
`setPhoneNumber`, `setEmail`, then `build` on the bound builder.  If
`setBuilder` was never called, the chained call dereferences `undefined` and
the JavaScript runtime raises a `TypeError`. -/
def CustomerDirector.buildFullCustomer (d : CustomerDirector)
    (firstName lastName phoneNumber email : String) :
    Except JsError (Customer × CustomerDirector) :=
  match d.builder with
  | none =>
    .error (.typeError "Cannot read properties of undefined (reading setFirstName)")
  | some b =>
    let b1 := (((b.setFirstName firstName).setLastName lastName).setPhoneNumber
      phoneNumber).setEmail email
    .ok (b1.build.1, { builder := some b1.build.2 })

/- ===== Product / ConcreteBuilder (part_000, lines 21-91) ===== -/

/-- The `Product` class: a private list of part strings, initially empty. -/
structure Product where
  parts : List String := []
deriving DecidableEq, Repr

/-- Method `Product.add`: pushes one part string onto the list. -/
def Product.add (p : Product) (part : String) : Product :=
  { parts := p.parts ++ [part] }

/-- The mutable state of `ConcreteBuilder`: its in-progress `product`.  The
constructor calls `reset`, so a fresh builder holds a new empty `Product`. -/
structure ConcreteBuilder where
  product : Product
deriving DecidableEq, Repr

/-- Method `ConcreteBuilder.reset`: replaces the product with a new empty one. -/
def ConcreteBuilder.reset (_b : ConcreteBuilder) : ConcreteBuilder :=
  ⟨{ parts := [] }⟩

/-- The state of a freshly constructed `ConcreteBuilder` (constructor runs
`reset`). -/
def freshConcreteBuilder : ConcreteBuilder :=
  ConcreteBuilder.reset ⟨{ parts := [] }⟩

/-- Method `ConcreteBuilder.setPartA`: adds the string `PartA` to the product. -/
def ConcreteBuilder.setPartA (b : ConcreteBuilder) : ConcreteBuilder :=
  ⟨b.product.add "PartA"⟩

/-- Method `ConcreteBuilder.setPartB`: adds the string `PartB` to the product. -/
def ConcreteBuilder.setPartB (b : ConcreteBuilder) : ConcreteBuilder :=
  ⟨b.product.add "PartB"⟩

/-- Method `ConcreteBuilder.setPartC`: adds the string `PartC` to the product. -/
def ConcreteBuilder.setPartC (b : ConcreteBuilder) : ConcreteBuilder :=
  ⟨b.product.add "PartC"⟩

/-- Method `ConcreteBuilder.getProduct`: returns the current product and resets the
builder (paired, in this embedding, with the post-reset builder state). -/
def ConcreteBuilder.getProduct (b : ConcreteBuilder) : Product × ConcreteBuilder :=
  (b.product, b.reset)

/-- One reified part-setter call on a `ConcreteBuilder`. -/
inductive PartOp where
  | setPartA
  | setPartB
  | setPartC
deriving DecidableEq, Repr

/-- The part string each setter adds. -/
def PartOp.partName : PartOp → String
  | .setPartA => "PartA"
  | .setPartB => "PartB"
  | .setPartC => "PartC"

/-- Apply one reified part-setter call to the builder state. -/
def PartOp.apply (op : PartOp) (b : ConcreteBuilder) : ConcreteBuilder :=
  match op with
  | .setPartA => b.setPartA
  | .setPartB => b.setPartB
  | .setPartC => b.setPartC

/-- Run a sequence of part-setter calls, left to right. -/
def applyPartOps (ops : List PartOp) (b : ConcreteBuilder) : ConcreteBuilder :=
  ops.foldl (fun b op => op.apply b) b

/- ===== Car / CarFactory (part_000, lines 272-331) ===== -/

/-- The concrete subclass a `Car` instance belongs to (`Sedan`, `SUV` or
`Hatchback`): the type discriminant of the factory's closed variant set. -/
inductive CarVariant where
  | sedan
  | suv
  | hatchback
deriving DecidableEq, Repr

/-- A constructed `Car`: its concrete subclass together with the `model` and
`productionYear` fields the base-class constructor stores. -/
structure Car where
  variant : CarVariant
  model : String
  productionYear : Int
deriving DecidableEq, Repr

/-- JavaScript's `String.prototype.toLowerCase` restricted to the ASCII tags
this code dispatches on: lowers every character of the string. -/
def toLowerCase (s : String) : String :=
  ⟨s.data.map Char.toLower⟩

/-- Method `CarFactory.createCar`: switches on `type.toLowerCase()`; on `sedan`,
`suv` or `hatchback` constructs the corresponding subclass with the given
model and production year; otherwise throws `Error('Invalid car type')`. -/
def CarFactory.createCar (type : String) (model : String) (productionYear : Int) :
    Except JsError Car :=
  if toLowerCase type = "sedan" then
    .ok ⟨.sedan, model, productionYear⟩
  else if toLowerCase type = "suv" then
    .ok ⟨.suv, model, productionYear⟩
  else if toLowerCase type = "hatchback" then
    .ok ⟨.hatchback, model, productionYear⟩
  else
    .error (.jsError "Invalid car type")

/-- Whether `needle` occurs at the start of `hay` (character lists). -/
def startsWithChars : List Char → List Char → Bool
  | _, [] => true
  | [], _ :: _ => false
  | a :: as, b :: bs => a == b && startsWithChars as bs

/-- Whether `needle` occurs contiguously anywhere in `hay` (character lists). -/
def hasSubstring : List Char → List Char → Bool
  | [], needle => needle.isEmpty
  | c :: t, needle => startsWithChars (c :: t) needle || hasSubstring t needle

/-- Whether the string `msg` mentions the string `tag` as a contiguous
substring.  Used to formalise the spec's requirement that an error message
"names the unrecognized tag". -/
def mentions (msg tag : String) : Bool :=
  hasSubstring msg.data tag.data

/- ===== ConcretePrototype (part_001, lines 20-47) ===== -/

/-- The `UserDetails` record held by a prototype. -/
structure UserDetails where
  name : String
  age : Int
  email : String
deriving DecidableEq, Repr

/-- A heap of `UserDetails` objects: list indices play the role of object
references, so aliasing between prototypes is observable. -/
abbrev UDHeap : Type := List UserDetails

/-- A `ConcretePrototype` instance: it holds a reference to its private
`userDetails` object on the heap. -/
structure ConcretePrototype where
  userDetails : Nat
deriving DecidableEq, Repr

/-- Method `ConcretePrototype.getUserDetails`: returns (the object behind) the
`userDetails` reference. -/
def ConcretePrototype.getUserDetails (p : ConcretePrototype) (h : UDHeap) :
    Option UserDetails :=
  List.get? h p.userDetails

/-- Method `ConcretePrototype.clone`: `Object.create(this)` followed by
`clone.userDetails = { ...this.userDetails }` — a fresh top-level copy of the
`userDetails` record is allocated and the clone references it. -/
def ConcretePrototype.clone (p : ConcretePrototype) (h : UDHeap) :
    ConcretePrototype × UDHeap :=
  match List.get? h p.userDetails with
  | some ud => (⟨List.length h⟩, h ++ [ud])
  | none => (⟨List.length h⟩, h ++ [⟨"", 0, ""⟩])

/-- In-place mutation of the `UserDetails` object behind reference `r`
(e.g. `proto.getUserDetails().name = v`), applying `f` to its fields. -/
def updateUD (r : Nat) (f : UserDetails → UserDetails) (h : UDHeap) : UDHeap :=
  match List.get? h r with
  | some ud => List.set h r (f ud)
  | none => h

/- ===== Trace model for a CustomerBuilder and its finalized snapshots ===== -/

/-- One operation a client can perform on a `CustomerBuilder`: a setter call
or a `build()` call. -/
inductive CustOp where
  | setter (op : SetterOp)
  | build
deriving DecidableEq, Repr

/-- A `CustomerBuilder` together with every `Customer` snapshot it has
returned so far, in order of finalization.  `build()` constructs a fresh
`Customer` object (`new Customer(...)` copies the four immutable string
values), so finalization appends to the snapshot list; nothing else touches
previously returned snapshots. -/
structure BuildSys where
  builder : CustomerBuilder
  snapshots : List Customer
deriving DecidableEq, Repr

/-- Run one client operation on the builder-plus-snapshots system. -/
def CustOp.step (op : CustOp) (s : BuildSys) : BuildSys :=
  match op with
  | .setter op => { s with builder := op.apply s.builder }
  | .build =>
    { builder := s.builder.build.2, snapshots := s.snapshots ++ [s.builder.build.1] }

/-- Run a sequence of client operations, left to right. -/
def runOps (ops : List CustOp) (s : BuildSys) : BuildSys :=
  ops.foldl (fun s op => op.step s) s

/-- The state of a freshly constructed `CustomerDirector`, before any
`setBuilder` call: its `builder` member is still `undefined`. -/
def freshCustomerDirector : CustomerDirector :=
  { builder := none }

/- ===== Helper lemmas ===== -/

/-- Unfolding lemma: running a cons of setter calls. -/
theorem applySetters_cons (op : SetterOp) (ops : List SetterOp) (b : CustomerBuilder) :
    applySetters (op :: ops) b = applySetters ops (op.apply b) :=
  rfl

/-- A setter call that is not `setFirstName` leaves `firstName` unchanged. -/
theorem setterApply_firstName (op : SetterOp) (b : CustomerBuilder)
    (h : op.setsFirstName = false) : (op.apply b).firstName = b.firstName := by
  cases op with
  | setFirstName v => simp [SetterOp.setsFirstName] at h
  | setLastName v => rfl
  | setPhoneNumber v => rfl
  | setEmail v => rfl

/-- A setter call that is not `setLastName` leaves `lastName` unchanged. -/
theorem setterApply_lastName (op : SetterOp) (b : CustomerBuilder)
    (h : op.setsLastName = false) : (op.apply b).lastName = b.lastName := by
  cases op with
  | setFirstName v => rfl
  | setLastName v => simp [SetterOp.setsLastName] at h
  | setPhoneNumber v => rfl
  | setEmail v => rfl

/-- A setter call that is not `setPhoneNumber` leaves `phoneNumber`
unchanged. -/
theorem setterApply_phoneNumber (op : SetterOp) (b : CustomerBuilder)
    (h : op.setsPhoneNumber = false) : (op.apply b).phoneNumber = b.phoneNumber := by
  cases op with
  | setFirstName v => rfl
  | setLastName v => rfl
  | setPhoneNumber v => simp [SetterOp.setsPhoneNumber] at h
  | setEmail v => rfl

/-- A setter call that is not `setEmail` leaves `email` unchanged. -/
theorem setterApply_email (op : SetterOp) (b : CustomerBuilder)
    (h : op.setsEmail = false) : (op.apply b).email = b.email := by
  cases op with
  | setFirstName v => rfl
  | setLastName v => rfl
  | setPhoneNumber v => rfl
  | setEmail v => simp [SetterOp.setsEmail] at h

/-- A setter sequence containing no `setFirstName` call preserves
`firstName`. -/
theorem applySetters_firstName (ops : List SetterOp) (b : CustomerBuilder)
    (h : ops.all (fun o => !o.setsFirstName) = true) :
    (applySetters ops b).firstName = b.firstName := by
  induction ops generalizing b with
  | nil => rfl
  | cons op t ih =>
    rw [List.all_cons, Bool.and_eq_true] at h
    rw [applySetters_cons, ih _ h.2, setterApply_firstName op b (by simpa using h.1)]

/-- A setter sequence containing no `setLastName` call preserves `lastName`. -/
theorem applySetters_lastName (ops : List SetterOp) (b : CustomerBuilder)
    (h : ops.all (fun o => !o.setsLastName) = true) :
    (applySetters ops b).lastName = b.lastName := by
  induction ops generalizing b with
  | nil => rfl
  | cons op t ih =>
    rw [List.all_cons, Bool.and_eq_true] at h
    rw [applySetters_cons, ih _ h.2, setterApply_lastName op b (by simpa using h.1)]

/-- A setter sequence containing no `setPhoneNumber` call preserves
`phoneNumber`. -/
theorem applySetters_phoneNumber (ops : List SetterOp) (b : CustomerBuilder)
    (h : ops.all (fun o => !o.setsPhoneNumber) = true) :
    (applySetters ops b).phoneNumber = b.phoneNumber := by
  induction ops generalizing b with
  | nil => rfl
  | cons op t ih =>
    rw [List.all_cons, Bool.and_eq_true] at h
    rw [applySetters_cons, ih _ h.2, setterApply_phoneNumber op b (by simpa using h.1)]

/-- A setter sequence containing no `setEmail` call preserves `email`. -/
theorem applySetters_email (ops : List SetterOp) (b : CustomerBuilder)
    (h : ops.all (fun o => !o.setsEmail) = true) :
    (applySetters ops b).email = b.email := by
  induction ops generalizing b with
  | nil => rfl
  | cons op t ih =>
    rw [List.all_cons, Bool.and_eq_true] at h
    rw [applySetters_cons, ih _ h.2, setterApply_email op b (by simpa using h.1)]

/- ===== Claim theorems ===== -/

/-- Claim C1: after any sequence of setter calls followed by `build()`, the
builder's internal state is reset to the defaults (all four fields the empty
string), so a subsequent `build()` with no intervening setter calls returns a
`Customer` whose `firstName`, `lastName`, `phoneNumber` and `email` are all
the empty string — the default snapshot, not a repeat of the prior one.  The
second `build()` also allocates a fresh `Customer` object, so it is never the
prior snapshot itself. -/
theorem builder_reset_after_build (ops : List SetterOp) :
    (applySetters ops freshCustomerBuilder).build.2 = freshCustomerBuilder ∧
    (applySetters ops freshCustomerBuilder).build.2.build.1 =
      { firstName := "", lastName := "", phoneNumber := "", email := "" } :=
  ⟨rfl, rfl⟩

/-- Claim C6: each `CustomerBuilder` setter returns the builder itself
(modelled here as returning the updated builder state, which is what every
subsequent chained call operates on), and setting the same field twice is
last-write-wins: setting a field to `v1` and then to `v2` leaves the state
identical to setting it to `v2` alone, with no error raised. -/
theorem setters_last_write_wins (b : CustomerBuilder) (v1 v2 : String) :
    (b.setFirstName v1).setFirstName v2 = b.setFirstName v2 ∧
    (b.setLastName v1).setLastName v2 = b.setLastName v2 ∧
    (b.setPhoneNumber v1).setPhoneNumber v2 = b.setPhoneNumber v2 ∧
    (b.setEmail v1).setEmail v2 = b.setEmail v2 :=
  ⟨rfl, rfl, rfl, rfl⟩

/-- Claim C8: `CustomerBuilder.build` is a total function — no setter and no
`build()` contains a `throw`, and `build()` performs no mandatory-field
check — so for every sequence of setter calls (including the empty one) it
returns a `Customer`, and every field not touched by the sequence silently
keeps its default, the empty string. -/
theorem build_total_unset_fields_default (ops : List SetterOp) :
    (ops.all (fun o => !o.setsFirstName) = true →
      (applySetters ops freshCustomerBuilder).build.1.firstName = "") ∧
    (ops.all (fun o => !o.setsLastName) = true →
      (applySetters ops freshCustomerBuilder).build.1.lastName = "") ∧
    (ops.all (fun o => !o.setsPhoneNumber) = true →
      (applySetters ops freshCustomerBuilder).build.1.phoneNumber = "") ∧
    (ops.all (fun o => !o.setsEmail) = true →
      (applySetters ops freshCustomerBuilder).build.1.email = "") :=
  ⟨fun h => applySetters_firstName ops freshCustomerBuilder h,
   fun h => applySetters_lastName ops freshCustomerBuilder h,
   fun h => applySetters_phoneNumber ops freshCustomerBuilder h,
   fun h => applySetters_email ops freshCustomerBuilder h⟩

/-- Witness for C8: at the empty setter sequence, `build()` returns the
all-defaults `Customer`. -/
theorem build_total_unset_fields_default_witness :
    (applySetters ([] : List SetterOp) freshCustomerBuilder).build.1.firstName = "" ∧
    (applySetters ([] : List SetterOp) freshCustomerBuilder).build.1.lastName = "" ∧
    (applySetters ([] : List SetterOp) freshCustomerBuilder).build.1.phoneNumber = "" ∧
    (applySetters ([] : List SetterOp) freshCustomerBuilder).build.1.email = "" :=
  ⟨(build_total_unset_fields_default []).1 (by decide),
   (build_total_unset_fields_default []).2.1 (by decide),
   (build_total_unset_fields_default []).2.2.1 (by decide),
   (build_total_unset_fields_default []).2.2.2 (by decide)⟩

/-- Claim C2: on a single `CustomerBuilder` bound to a `CustomerDirector`,
`buildFullCustomer "abc" "123" phone "jane@x.com"` followed by
`buildMinimalCustomer "John" "Doe" "john@x.com"` yields two `Customer`s; the
second has `firstName` "John", `lastName` "Doe", `email` "john@x.com", and the
default empty `phoneNumber` — the phone value of the first build does not leak
into the second. -/
theorem director_full_then_minimal (phone : String) :
    ∃ (c1 : Customer) (d1 : CustomerDirector) (c2 : Customer)
      (d2 : CustomerDirector),
      (freshCustomerDirector.setBuilder freshCustomerBuilder).buildFullCustomer
          "abc" "123" phone "jane@x.com" = .ok (c1, d1) ∧
      c1 = ⟨"abc", "123", phone, "jane@x.com"⟩ ∧
      d1.buildMinimalCustomer "John" "Doe" "john@x.com" = .ok (c2, d2) ∧
      c2.firstName = "John" ∧ c2.lastName = "Doe" ∧
      c2.email = "john@x.com" ∧ c2.phoneNumber = "" :=
  ⟨_, _, _, _, rfl, rfl, rfl, rfl, rfl, rfl, rfl⟩

/-- Counterexample to claim C3: on a `CustomerDirector` on which `setBuilder`
was never called, `buildMinimalCustomer` fails with the runtime `TypeError`
raised by dereferencing the `undefined` builder member — exactly the
null-dereference the claim says must not happen; no `BuilderNotBoundError`
class exists in the code, and no `Customer` is returned. -/
theorem unbound_director_null_deref :
    freshCustomerDirector.buildMinimalCustomer "John" "Doe" "john@x.com" =
      .error (.typeError
        "Cannot read properties of undefined (reading setFirstName)") :=
  rfl

/-- Amended claim C3: for every `CustomerDirector` on which `setBuilder` was
never called, invoking a recipe method (`buildMinimalCustomer` or
`buildFullCustomer`) fails with the `TypeError` of a null/undefined
dereference and returns no `Customer`. -/
theorem unbound_director_fails (fn ln pn em : String) :
    freshCustomerDirector.buildMinimalCustomer fn ln em =
      .error (.typeError
        "Cannot read properties of undefined (reading setFirstName)") ∧
    freshCustomerDirector.buildFullCustomer fn ln pn em =
      .error (.typeError
        "Cannot read properties of undefined (reading setFirstName)") :=
  ⟨rfl, rfl⟩

/-- Counterexample to claim C4: `createCar "minivan" ...` does throw, but the
thrown error message is the fixed string `Invalid car type`, which does not
mention (name) the unrecognized tag `minivan` anywhere. -/
theorem createCar_unknown_tag_unnamed :
    CarFactory.createCar "minivan" "Test Car" 2020 =
      .error (.jsError "Invalid car type") ∧
    mentions "Invalid car type" "minivan" = false :=
  ⟨rfl, rfl⟩

/-- Amended claim C4: for every tag whose lowercase form is not one of the
registered variants, `CarFactory.createCar` fails with the thrown error whose
message is the fixed string `Invalid car type` (it does not name the
unrecognized tag), and never returns a `Car`. -/
theorem createCar_unknown_tag_error (tag model : String) (year : Int)
    (h1 : toLowerCase tag ≠ "sedan") (h2 : toLowerCase tag ≠ "suv")
    (h3 : toLowerCase tag ≠ "hatchback") :
    CarFactory.createCar tag model year = .error (.jsError "Invalid car type") := by
  simp [CarFactory.createCar, h1, h2, h3]

/-- Witness for amended C4: the unregistered tag `minivan`. -/
theorem createCar_unknown_tag_error_witness :
    CarFactory.createCar "minivan" "Minivan X" 2021 =
      .error (.jsError "Invalid car type") :=
  createCar_unknown_tag_error "minivan" "Minivan X" 2021 (by decide) (by decide)
    (by decide)

/-- Claim C5: `CarFactory.createCar` dispatches on the lowercase form of the
tag: any tag lowering to `sedan`, `suv` or `hatchback` yields a `Car` of the
corresponding variant carrying exactly the supplied model and production
year; in particular `createCar "sedan" "Toyota Camry" 2020` returns a Sedan
with that model and year, and the `sedan` and `suv` variant discriminants are
distinct. -/
theorem createCar_case_insensitive (tag model : String) (year : Int) :
    (toLowerCase tag = "sedan" →
      CarFactory.createCar tag model year = .ok ⟨.sedan, model, year⟩) ∧
    (toLowerCase tag = "suv" →
      CarFactory.createCar tag model year = .ok ⟨.suv, model, year⟩) ∧
    (toLowerCase tag = "hatchback" →
      CarFactory.createCar tag model year = .ok ⟨.hatchback, model, year⟩) ∧
    CarFactory.createCar "sedan" "Toyota Camry" 2020 =
      .ok ⟨.sedan, "Toyota Camry", 2020⟩ ∧
    CarVariant.sedan ≠ CarVariant.suv := by
  refine ⟨fun h => ?_, fun h => ?_, fun h => ?_, rfl, by decide⟩
  · simp [CarFactory.createCar, h]
  · have h1 : toLowerCase tag ≠ "sedan" := by rw [h]; decide
    simp [CarFactory.createCar, h, h1]
  · have h1 : toLowerCase tag ≠ "sedan" := by rw [h]; decide
    have h2 : toLowerCase tag ≠ "suv" := by rw [h]; decide
    simp [CarFactory.createCar, h, h1, h2]

/-- Witness for C5: the mixed-case tag `SeDan` dispatches to the Sedan
variant with the supplied model and year. -/
theorem createCar_case_insensitive_witness :
    CarFactory.createCar "SeDan" "Toyota Camry" 2020 =
      .ok ⟨CarVariant.sedan, "Toyota Camry", 2020⟩ :=
  (createCar_case_insensitive "SeDan" "Toyota Camry" 2020).1 (by decide)

/-- Running a sequence of builder operations only ever appends to the list of
finalized snapshots: every `build()` allocates a fresh `Customer` and no
operation writes into an existing one. -/
theorem runOps_snapshots_extend (ops : List CustOp) (s : BuildSys) :
    ∃ tail, (runOps ops s).snapshots = s.snapshots ++ tail := by
  induction ops generalizing s with
  | nil => exact ⟨[], by simp [runOps]⟩
  | cons op t ih =>
    have hstep : runOps (op :: t) s = runOps t (op.step s) := rfl
    obtain ⟨tail, htail⟩ := ih (op.step s)
    cases op with
    | setter o =>
      exact ⟨tail, by rw [hstep, htail]; simp [CustOp.step]⟩
    | build =>
      refine ⟨s.builder.build.1 :: tail, ?_⟩
      rw [hstep, htail]
      simp [CustOp.step]

/-- Claim C7: a `Customer` snapshot already returned by
`CustomerBuilder.build` is never changed by later operations on the same
builder — setter calls and further `build()` calls leave every previously
finalized snapshot exactly as it was, because `build()` constructs a fresh
`Customer` from the (immutable) string values and then resets the builder. -/
theorem snapshot_unchanged_by_later_ops (ops : List CustOp) (s : BuildSys)
    (i : Nat) (hi : i < s.snapshots.length) :
    List.get? (runOps ops s).snapshots i = List.get? s.snapshots i := by
  obtain ⟨tail, ht⟩ := runOps_snapshots_extend ops s
  rw [ht]
  simp [List.get?_eq_getElem?, List.getElem?_append_left hi]

/-- Witness for C7: a snapshot already on record survives a later setter call
and a later `build()` untouched. -/
theorem snapshot_unchanged_by_later_ops_witness :
    List.get?
      (runOps [CustOp.setter (SetterOp.setFirstName "Zed"), CustOp.build]
        { builder := freshCustomerBuilder,
          snapshots := [⟨"Jane", "Doe", "555", "jane@x.com"⟩] }).snapshots 0 =
      List.get? [(⟨"Jane", "Doe", "555", "jane@x.com"⟩ : Customer)] 0 :=
  snapshot_unchanged_by_later_ops
    [CustOp.setter (SetterOp.setFirstName "Zed"), CustOp.build]
    { builder := freshCustomerBuilder,
      snapshots := [⟨"Jane", "Doe", "555", "jane@x.com"⟩] }
    0 (by decide)

/-- Applying part-setter calls appends exactly the corresponding part names,
in call order, to the in-progress product. -/
theorem applyPartOps_parts (ops : List PartOp) (b : ConcreteBuilder) :
    (applyPartOps ops b).product.parts = b.product.parts ++ ops.map PartOp.partName := by
  induction ops generalizing b with
  | nil => simp [applyPartOps]
  | cons op t ih =>
    have hstep : applyPartOps (op :: t) b = applyPartOps t (op.apply b) := rfl
    rw [hstep, ih]
    cases op <;>
      simp [PartOp.apply, PartOp.partName, ConcreteBuilder.setPartA,
        ConcreteBuilder.setPartB, ConcreteBuilder.setPartC, Product.add]

/-- Claim C9: for the part-list builder, `getProduct()` returns a `Product`
whose parts are exactly the part names added by the `setPartA`/`setPartB`/
`setPartC` calls made since the last reset, in call order; a fresh
`ConcreteBuilder`, or one just after `getProduct()`, yields a `Product` with
an empty parts list when no setters are called. -/
theorem getProduct_parts (ops : List PartOp) :
    ((applyPartOps ops freshConcreteBuilder).getProduct.1).parts =
      ops.map PartOp.partName ∧
    (((applyPartOps ops freshConcreteBuilder).getProduct.2).getProduct.1).parts = [] ∧
    (freshConcreteBuilder.getProduct.1).parts = [] := by
  refine ⟨?_, rfl, rfl⟩
  simpa [ConcreteBuilder.getProduct, freshConcreteBuilder, ConcreteBuilder.reset]
    using applyPartOps_parts ops freshConcreteBuilder

/-- Claim C10: `ConcretePrototype.clone` copies the `userDetails` record into
a freshly allocated object: the clone's `getUserDetails()` agrees
field-by-field with the original's, the clone references a distinct heap
object, and mutating the clone's `userDetails` (with any field update `f`)
leaves the original's `userDetails` unchanged — and vice versa (any update
`g` of the original leaves the clone unchanged). -/
theorem clone_deep_independent (p : ConcretePrototype) (h : UDHeap)
    (f g : UserDetails → UserDetails) (hv : p.userDetails < h.length) :
    ((p.clone h).1).getUserDetails ((p.clone h).2) = p.getUserDetails h ∧
    p.getUserDetails ((p.clone h).2) = p.getUserDetails h ∧
    ((p.clone h).1).userDetails ≠ p.userDetails ∧
    p.getUserDetails (updateUD ((p.clone h).1).userDetails f ((p.clone h).2)) =
      p.getUserDetails h ∧
    ((p.clone h).1).getUserDetails (updateUD p.userDetails g ((p.clone h).2)) =
      ((p.clone h).1).getUserDetails ((p.clone h).2) := by
  have hg : List.get? h p.userDetails = some (h.get ⟨p.userDetails, hv⟩) :=
    List.get?_eq_get hv
  set ud := h.get ⟨p.userDetails, hv⟩ with hud
  have hclone : p.clone h = (⟨h.length⟩, h ++ [ud]) := by
    simp only [ConcretePrototype.clone]
    rw [hg]
  have hne : h.length ≠ p.userDetails := ne_of_gt hv
  have hcl : List.get? (h ++ [ud]) h.length = some ud := by
    simp [List.get?_eq_getElem?]
  have horig : List.get? (h ++ [ud]) p.userDetails = List.get? h p.userDetails := by
    simp [List.get?_eq_getElem?, List.getElem?_append_left hv]
  refine ⟨?_, ?_, ?_, ?_, ?_⟩
  · rw [hclone]
    simp only [ConcretePrototype.getUserDetails]
    rw [hcl, hg]
  · rw [hclone]
    simp only [ConcretePrototype.getUserDetails]
    exact horig
  · rw [hclone]
    exact hne
  · rw [hclone]
    simp only [ConcretePrototype.getUserDetails, updateUD]
    rw [hcl]
    simp [List.get?_eq_getElem?, List.getElem?_set_ne hne,
      List.getElem?_append_left hv]
  · rw [hclone]
    simp only [ConcretePrototype.getUserDetails, updateUD]
    rw [horig, hg]
    simp [List.get?_eq_getElem?, List.getElem?_set_ne (Ne.symm hne)]

/-- Witness for C10: cloning a prototype for Alice, then renaming the clone
to Bob and aging the original, never crosses between the two objects. -/
theorem clone_deep_independent_witness :
    (((⟨0⟩ : ConcretePrototype).clone [⟨"Alice", 30, "alice@x.com"⟩]).1).getUserDetails
        (((⟨0⟩ : ConcretePrototype).clone [⟨"Alice", 30, "alice@x.com"⟩]).2) =
      (⟨0⟩ : ConcretePrototype).getUserDetails [⟨"Alice", 30, "alice@x.com"⟩] ∧
    (⟨0⟩ : ConcretePrototype).getUserDetails
        (((⟨0⟩ : ConcretePrototype).clone [⟨"Alice", 30, "alice@x.com"⟩]).2) =
      (⟨0⟩ : ConcretePrototype).getUserDetails [⟨"Alice", 30, "alice@x.com"⟩] ∧
    (((⟨0⟩ : ConcretePrototype).clone [⟨"Alice", 30, "alice@x.com"⟩]).1).userDetails ≠
      (⟨0⟩ : ConcretePrototype).userDetails ∧
    (⟨0⟩ : ConcretePrototype).getUserDetails
        (updateUD
          (((⟨0⟩ : ConcretePrototype).clone [⟨"Alice", 30, "alice@x.com"⟩]).1).userDetails
          (fun ud => { ud with name := "Bob" })
          (((⟨0⟩ : ConcretePrototype).clone [⟨"Alice", 30, "alice@x.com"⟩]).2)) =
      (⟨0⟩ : ConcretePrototype).getUserDetails [⟨"Alice", 30, "alice@x.com"⟩] ∧
    (((⟨0⟩ : ConcretePrototype).clone [⟨"Alice", 30, "alice@x.com"⟩]).1).getUserDetails
        (updateUD (⟨0⟩ : ConcretePrototype).userDetails
          (fun ud => { ud with age := 31 })
          (((⟨0⟩ : ConcretePrototype).clone [⟨"Alice", 30, "alice@x.com"⟩]).2)) =
      (((⟨0⟩ : ConcretePrototype).clone [⟨"Alice", 30, "alice@x.com"⟩]).1).getUserDetails
        (((⟨0⟩ : ConcretePrototype).clone [⟨"Alice", 30, "alice@x.com"⟩]).2) :=
  clone_deep_independent ⟨0⟩ [⟨"Alice", 30, "alice@x.com"⟩]
    (fun ud => { ud with name := "Bob" }) (fun ud => { ud with age := 31 })
    (by decide)

end DesignPatterns
